import Mathlib

/-!
Verification of the Financial Data Analysis API layer (`src/main.py`) against
its natural-language specification.

The development shallowly embeds the Python code:
* Python floats are modelled by `PyFloat` (a finite rational, NaN, or a signed
  infinity) — the code only classifies floats via `np.isnan`/`np.isinf`, it
  never computes with them, so this abstraction is exact for the claims.
* Python value trees (the insight bundles crossing the API boundary) are
  modelled by `PyValue`, distinguishing numpy wrapper types (`np.floating`,
  `np.integer`, `np.bool_`) from native `float`/`int`/`bool` leaves, since the
  sanitization pass `convert_to_native_types` branches on exactly that.
* The Python `bool` type is a subclass of `int`, so `isinstance(b, int)` holds
  for a native bool: in `convert_to_native_types`, a native bool leaf falls
  into the `(np.integer, int)` branch and is replaced by `int(b)`.
* The FastAPI endpoint handlers are embedded as pure functions parameterised
  by the collaborator behaviour (collector / analyzer results) and the clock
  (`datetime.now()`), with the `try/except` control flow made explicit via
  `Except`.  Note that `fastapi.HTTPException` derives from `Exception`, so
  the `except Exception` clauses catch the `HTTPException(404)` raised inside
  the `try` blocks.
-/

/-- A Python `float` / numpy floating value, abstracted for classification:
either a finite value (carried as a rational), NaN, or a signed infinity.
`np.isnan` / `np.isinf` are exactly the two discriminators the source uses. -/
inductive PyFloat where
  | finite (q : ℚ)
  | nan
  | inf (pos : Bool)
  deriving DecidableEq, Repr

/-- `np.isnan` on the abstracted float. -/
def PyFloat.isNan : PyFloat → Bool
  | .nan => true
  | _ => false

/-- `np.isinf` on the abstracted float. -/
def PyFloat.isInf : PyFloat → Bool
  | .inf _ => true
  | _ => false

/-- A Python value tree as produced by the analyzer and walked by
`convert_to_native_types`: dicts, lists, and leaves.  Numpy wrapper types are
distinguished from native types because the source branches on
`isinstance(obj, np.floating)` etc.  String keys match the spec's value-tree
model (a map from indicator name to value). -/
inductive PyValue where
  | dict (entries : List (String × PyValue))
  | list (items : List PyValue)
  | npFloat (f : PyFloat)
  | pyFloat (f : PyFloat)
  | npInt (n : ℤ)
  | pyInt (n : ℤ)
  | npBool (b : Bool)
  | pyBool (b : Bool)
  | str (s : String)
  | none
  deriving Repr

mutual

/-- Embedding of `convert_to_native_types` (src/main.py lines 128–143).
Branch order follows the source: dict, list, NaN/Inf float → `None`,
float → `float(obj)`, `(np.integer, int)` → `int(obj)` (this branch also
captures native Python bools, `bool` being a subclass of `int`, so
`int(True) = 1`), `np.bool_` → `bool(obj)`, fallthrough `return obj`. -/
def convert_to_native_types : PyValue → PyValue
  | .dict es => .dict (convertEntries es)
  | .list xs => .list (convertItems xs)
  | .npFloat f => if f.isNan || f.isInf then .none else .pyFloat f
  | .pyFloat f => if f.isNan || f.isInf then .none else .pyFloat f
  | .npInt n => .pyInt n
  | .pyInt n => .pyInt n
  | .pyBool b => .pyInt (if b then 1 else 0)
  | .npBool b => .pyBool b
  | .str s => .str s
  | .none => .none

/-- The dict comprehension `{k: convert_to_native_types(v) for k, v in obj.items()}`. -/
def convertEntries : List (String × PyValue) → List (String × PyValue)
  | [] => []
  | (k, v) :: rest => (k, convert_to_native_types v) :: convertEntries rest

/-- The list comprehension `[convert_to_native_types(item) for item in obj]`. -/
def convertItems : List PyValue → List PyValue
  | [] => []
  | v :: rest => convert_to_native_types v :: convertItems rest

end

theorem convertEntries_eq_map (es : List (String × PyValue)) :
    convertEntries es = es.map (fun p => (p.1, convert_to_native_types p.2)) := by
  induction es with
  | nil => rfl
  | cons p rest ih => cases p; simp [convertEntries, ih]

theorem convertItems_eq_map (xs : List PyValue) :
    convertItems xs = xs.map convert_to_native_types := by
  induction xs with
  | nil => rfl
  | cons v rest ih => simp [convertItems, ih]

example : convert_to_native_types (.npFloat .nan) = .none := rfl
example : convert_to_native_types (.pyBool true) = .pyInt 1 := rfl
example : convert_to_native_types (.dict [("a", .npInt 3)]) = .dict [("a", .pyInt 3)] := rfl

mutual

/-- All leaf nodes of a value tree, left to right (dicts and lists are the
only containers the sanitization pass recurses into). -/
def leaves : PyValue → List PyValue
  | .dict es => leavesEntries es
  | .list xs => leavesItems xs
  | v => [v]

def leavesEntries : List (String × PyValue) → List PyValue
  | [] => []
  | (_, v) :: rest => leaves v ++ leavesEntries rest

def leavesItems : List PyValue → List PyValue
  | [] => []
  | v :: rest => leaves v ++ leavesItems rest

end

/-- Leaf classifier: a Python or numpy float leaf. -/
def isFloatLeaf : PyValue → Bool
  | .npFloat _ => true
  | .pyFloat _ => true
  | _ => false

/-- Leaf classifier: a float leaf that is NaN or infinite. -/
def isBadFloat : PyValue → Bool
  | .npFloat f => f.isNan || f.isInf
  | .pyFloat f => f.isNan || f.isInf
  | _ => false

/-- Leaf classifier: a numpy wrapper-typed leaf. -/
def isNumpyLeaf : PyValue → Bool
  | .npFloat _ => true
  | .npInt _ => true
  | .npBool _ => true
  | _ => false

/-- Leaf classifier: a boolean-typed leaf (numpy or native). -/
def isBoolLeaf : PyValue → Bool
  | .npBool _ => true
  | .pyBool _ => true
  | _ => false

/-- The numeric value of a finite numeric leaf (Python treats `bool` as a
numeric type with `True == 1`, `False == 0`); `Option.none` for NaN/Inf
floats, containers, strings and `None`. -/
def numVal : PyValue → Option ℚ
  | .npFloat (.finite q) => some q
  | .pyFloat (.finite q) => some q
  | .npInt n => some (n : ℚ)
  | .pyInt n => some (n : ℚ)
  | .npBool b => some (if b then 1 else 0)
  | .pyBool b => some (if b then 1 else 0)
  | _ => Option.none

/-- A leaf acceptable at the API boundary: not a numpy wrapper type and not a
NaN/Inf float.  (Trivially true on the container constructors, which are not
leaves.) -/
def cleanLeaf (v : PyValue) : Bool := !isNumpyLeaf v && !isBadFloat v

/-- The whole tree is serialization-safe: every leaf is clean. -/
def cleanTree (v : PyValue) : Bool := (leaves v).all cleanLeaf

/-- The tree contains no numpy-boolean leaf. -/
def noNpBoolLeaf (v : PyValue) : Bool := (leaves v).all (fun l => !isBoolLeaf l || !isNumpyLeaf l)

theorem leavesEntries_eq_bind (es : List (String × PyValue)) :
    leavesEntries es = es.flatMap (fun p => leaves p.2) := by
  induction es with
  | nil => rfl
  | cons p rest ih => cases p; simp [leavesEntries, ih]

theorem leavesItems_eq_bind (xs : List PyValue) :
    leavesItems xs = xs.flatMap leaves := by
  induction xs with
  | nil => rfl
  | cons v rest ih => simp [leavesItems, ih]

mutual

/-- `convert_to_native_types` acts leafwise: the leaves of the output are the
images of the leaves of the input, in order. -/
theorem leaves_convert : ∀ v : PyValue,
    leaves (convert_to_native_types v) = (leaves v).map convert_to_native_types
  | .dict es => by
      simp [convert_to_native_types, leaves, leavesEntries_convert es]
  | .list xs => by
      simp [convert_to_native_types, leaves, leavesItems_convert xs]
  | .npFloat f => by cases f <;> simp [convert_to_native_types, leaves, PyFloat.isNan, PyFloat.isInf]
  | .pyFloat f => by cases f <;> simp [convert_to_native_types, leaves, PyFloat.isNan, PyFloat.isInf]
  | .npInt n => rfl
  | .pyInt n => rfl
  | .npBool b => rfl
  | .pyBool b => rfl
  | .str s => rfl
  | .none => rfl

theorem leavesEntries_convert : ∀ es : List (String × PyValue),
    leavesEntries (convertEntries es) = (leavesEntries es).map convert_to_native_types
  | [] => rfl
  | (k, v) :: rest => by
      simp [convertEntries, leavesEntries, leaves_convert v, leavesEntries_convert rest]

theorem leavesItems_convert : ∀ xs : List PyValue,
    leavesItems (convertItems xs) = (leavesItems xs).map convert_to_native_types
  | [] => rfl
  | v :: rest => by
      simp [convertItems, leavesItems, leaves_convert v, leavesItems_convert rest]

end

/-- The image of any value under the pass is a clean node: never a numpy
wrapper, never a NaN/Inf float. -/
theorem cleanLeaf_convert (v : PyValue) : cleanLeaf (convert_to_native_types v) = true := by
  cases v with
  | npFloat f =>
      by_cases h : f.isNan || f.isInf <;>
        simp [convert_to_native_types, cleanLeaf, isNumpyLeaf, isBadFloat, h]
  | pyFloat f =>
      by_cases h : f.isNan || f.isInf <;>
        simp [convert_to_native_types, cleanLeaf, isNumpyLeaf, isBadFloat, h]
  | _ => simp [convert_to_native_types, cleanLeaf, isNumpyLeaf, isBadFloat]

mutual

theorem convertIdem : ∀ v : PyValue, noNpBoolLeaf v = true →
    convert_to_native_types (convert_to_native_types v) = convert_to_native_types v
  | .dict es, h => by
      have h' : (leavesEntries es).all (fun l => !isBoolLeaf l || !isNumpyLeaf l) = true := by
        simpa [noNpBoolLeaf, leaves] using h
      simp [convert_to_native_types, convertEntriesIdem es h']
  | .list xs, h => by
      have h' : (leavesItems xs).all (fun l => !isBoolLeaf l || !isNumpyLeaf l) = true := by
        simpa [noNpBoolLeaf, leaves] using h
      simp [convert_to_native_types, convertItemsIdem xs h']
  | .npFloat f, _ => by
      by_cases hb : f.isNan || f.isInf <;> simp [convert_to_native_types, hb]
  | .pyFloat f, _ => by
      by_cases hb : f.isNan || f.isInf <;> simp [convert_to_native_types, hb]
  | .npInt n, _ => rfl
  | .pyInt n, _ => rfl
  | .npBool b, h => by
      simp [noNpBoolLeaf, leaves, isBoolLeaf, isNumpyLeaf] at h
  | .pyBool b, _ => by cases b <;> rfl
  | .str s, _ => rfl
  | .none, _ => rfl

theorem convertEntriesIdem : ∀ es : List (String × PyValue),
    (leavesEntries es).all (fun l => !isBoolLeaf l || !isNumpyLeaf l) = true →
    convertEntries (convertEntries es) = convertEntries es
  | [], _ => rfl
  | (k, v) :: rest, h => by
      rw [leavesEntries, List.all_append] at h
      obtain ⟨h1, h2⟩ := Bool.and_eq_true_iff.mp h
      have hv : noNpBoolLeaf v = true := h1
      simp [convertEntries, convertIdem v hv, convertEntriesIdem rest h2]

theorem convertItemsIdem : ∀ xs : List PyValue,
    (leavesItems xs).all (fun l => !isBoolLeaf l || !isNumpyLeaf l) = true →
    convertItems (convertItems xs) = convertItems xs
  | [], _ => rfl
  | v :: rest, h => by
      rw [leavesItems, List.all_append] at h
      obtain ⟨h1, h2⟩ := Bool.and_eq_true_iff.mp h
      have hv : noNpBoolLeaf v = true := h1
      simp [convertItems, convertIdem v hv, convertItemsIdem rest h2]

end

/-- C1: the sanitization pass `convert_to_native_types` acts leafwise; every
float leaf (native or numpy) that is NaN or infinite is replaced by `None`,
and every leaf that is not a NaN/Inf float keeps its numeric value unchanged
(up to type normalization). -/
theorem C1_nan_inf_replaced_value_preserved (v : PyValue) :
    leaves (convert_to_native_types v) = (leaves v).map convert_to_native_types
    ∧ ∀ l ∈ leaves v,
        (isFloatLeaf l = true → isBadFloat l = true →
          convert_to_native_types l = PyValue.none)
        ∧ (isBadFloat l = false →
          numVal (convert_to_native_types l) = numVal l) := by
  refine ⟨leaves_convert v, fun l _ => ?_⟩
  constructor
  · intro hf hb
    cases l <;> simp_all [isFloatLeaf, isBadFloat, convert_to_native_types]
  · intro hb
    cases l with
    | npFloat f => cases f <;> simp_all [isBadFloat, convert_to_native_types, numVal, PyFloat.isNan, PyFloat.isInf]
    | pyFloat f => cases f <;> simp_all [isBadFloat, convert_to_native_types, numVal, PyFloat.isNan, PyFloat.isInf]
    | pyBool b => cases b <;> rfl
    | npBool b => cases b <;> rfl
    | dict es => simp [convert_to_native_types, numVal]
    | list xs => simp [convert_to_native_types, numVal]
    | _ => rfl

/-- Witness for C1 at concrete leaves: a numpy NaN float becomes `None`, and
a finite native float keeps its value. -/
theorem C1_witness :
    convert_to_native_types (PyValue.npFloat PyFloat.nan) = PyValue.none
    ∧ numVal (convert_to_native_types (PyValue.pyFloat (PyFloat.finite 2)))
      = numVal (PyValue.pyFloat (PyFloat.finite 2)) :=
  ⟨((C1_nan_inf_replaced_value_preserved (PyValue.npFloat PyFloat.nan)).2
      (PyValue.npFloat PyFloat.nan) (by simp [leaves])).1 rfl rfl,
   ((C1_nan_inf_replaced_value_preserved (PyValue.pyFloat (PyFloat.finite 2))).2
      (PyValue.pyFloat (PyFloat.finite 2)) (by simp [leaves])).2 rfl⟩

/-- C2: the output of the sanitization pass contains no NaN, no infinity and
no numpy wrapper-typed value anywhere in the tree. -/
theorem C2_sanitized_tree_clean (v : PyValue) :
    cleanTree (convert_to_native_types v) = true := by
  unfold cleanTree
  rw [leaves_convert, List.all_eq_true]
  intro l hl
  obtain ⟨w, _, rfl⟩ := List.mem_map.mp hl
  exact cleanLeaf_convert w

/-- C9: the sanitization pass preserves tree structure: a dict keeps exactly
its keys in order, a list keeps its length (and elements are converted in
place, preserving order), and string / `None` leaves are returned unchanged. -/
theorem C9_structure_preserved :
    (∀ es : List (String × PyValue),
        convert_to_native_types (PyValue.dict es)
          = PyValue.dict (es.map (fun p => (p.1, convert_to_native_types p.2)))
        ∧ (es.map (fun p => (p.1, convert_to_native_types p.2))).map Prod.fst
          = es.map Prod.fst)
    ∧ (∀ xs : List PyValue,
        convert_to_native_types (PyValue.list xs)
          = PyValue.list (xs.map convert_to_native_types)
        ∧ (xs.map convert_to_native_types).length = xs.length)
    ∧ (∀ s, convert_to_native_types (PyValue.str s) = PyValue.str s)
    ∧ convert_to_native_types PyValue.none = PyValue.none := by
  refine ⟨fun es => ⟨?_, ?_⟩, fun xs => ⟨?_, ?_⟩, fun s => rfl, rfl⟩
  · simp [convert_to_native_types, convertEntries_eq_map]
  · simp
  · simp [convert_to_native_types, convertItems_eq_map]
  · simp

/-- C4 fails as stated: a native Python boolean leaf is not a boolean after
the pass — `bool` being a subclass of `int`, the `(np.integer, int)` branch
converts `True` to the native int `1`. -/
theorem C4_counterexample :
    convert_to_native_types (PyValue.pyBool true) = PyValue.pyInt 1
    ∧ isBoolLeaf (convert_to_native_types (PyValue.pyBool true)) = false :=
  ⟨rfl, rfl⟩

/-- C4 amended: the pass normalizes each finite numpy floating or float leaf
to a native float, each numpy integer or int leaf to a native int, and each
numpy bool to a native bool; however a native Python bool leaf becomes a
native int (1 or 0), `bool` being a subclass of `int`, so a boolean leaf is
boolean after the pass only when it was a numpy bool. -/
theorem C4_type_normalization (f : PyFloat) (n : ℤ) (b : Bool) :
    (isBadFloat (PyValue.npFloat f) = false →
      convert_to_native_types (PyValue.npFloat f) = PyValue.pyFloat f)
    ∧ (isBadFloat (PyValue.pyFloat f) = false →
      convert_to_native_types (PyValue.pyFloat f) = PyValue.pyFloat f)
    ∧ convert_to_native_types (PyValue.npInt n) = PyValue.pyInt n
    ∧ convert_to_native_types (PyValue.pyInt n) = PyValue.pyInt n
    ∧ convert_to_native_types (PyValue.npBool b) = PyValue.pyBool b
    ∧ convert_to_native_types (PyValue.pyBool b)
      = PyValue.pyInt (if b then 1 else 0) := by
  refine ⟨fun h => ?_, fun h => ?_, rfl, rfl, rfl, rfl⟩ <;>
    simp_all [isBadFloat, convert_to_native_types]

/-- Witness for C4 amended at concrete leaves. -/
theorem C4_witness :
    convert_to_native_types (PyValue.npFloat (PyFloat.finite 2)) = PyValue.pyFloat (PyFloat.finite 2)
    ∧ convert_to_native_types (PyValue.npBool true) = PyValue.pyBool true
    ∧ convert_to_native_types (PyValue.pyBool false) = PyValue.pyInt 0 :=
  ⟨(C4_type_normalization (PyFloat.finite 2) 3 true).1 rfl,
   (C4_type_normalization (PyFloat.finite 2) 3 true).2.2.2.2.1,
   (C4_type_normalization (PyFloat.finite 2) 3 false).2.2.2.2.2⟩

/-- C8 fails as stated: the pass is not idempotent — a numpy bool becomes a
native bool on the first application, which the second application converts
to a native int. -/
theorem C8_counterexample :
    convert_to_native_types (convert_to_native_types (PyValue.npBool true))
      ≠ convert_to_native_types (PyValue.npBool true) := by
  intro h
  exact PyValue.noConfusion h

/-- C8 amended: on every value tree containing no numpy-boolean leaf, the
sanitization pass is idempotent: applying it twice yields exactly the result
of applying it once. -/
theorem C8_idempotent_without_npbool (v : PyValue) (h : noNpBoolLeaf v = true) :
    convert_to_native_types (convert_to_native_types v) = convert_to_native_types v :=
  convertIdem v h

/-- Witness for C8 amended on a concrete tree (containing a NaN, a native
bool and a nested dict, but no numpy bool). -/
theorem C8_witness :
    noNpBoolLeaf (PyValue.dict [("a", PyValue.npFloat PyFloat.nan), ("b", PyValue.pyBool true)]) = true
    ∧ convert_to_native_types (convert_to_native_types
        (PyValue.dict [("a", PyValue.npFloat PyFloat.nan), ("b", PyValue.pyBool true)]))
      = convert_to_native_types
        (PyValue.dict [("a", PyValue.npFloat PyFloat.nan), ("b", PyValue.pyBool true)]) :=
  ⟨rfl, C8_idempotent_without_npbool _ rfl⟩

/-- The FastAPI request model `StockRequest` (src/main.py lines 31–34),
with the source's defaults. -/
structure StockRequest where
  symbol : String
  period : String := "6mo"
  interval : String := "1d"

/-- A raised Python exception, as relevant to the handlers: a
`fastapi.HTTPException` (which carries a status code and a detail string and
derives from `Exception`), or any other exception with its message. -/
inductive PyExn where
  | http (status : ℕ) (detail : String)
  | other (msg : String)

/-- Python `str(e)`: for a starlette/fastapi `HTTPException` this prints
`"<status>: <detail>"`; for other exceptions, the message. -/
def PyExn.message : PyExn → String
  | .http s d => toString s ++ ": " ++ d
  | .other m => m

/-- What the HTTP client observes from one handler call: a successful body,
or an error response with a status code and detail. -/
inductive HandlerOutcome where
  | ok (body : PyValue)
  | error (status : ℕ) (detail : String)

/-- The HTTP status of an outcome (FastAPI returns 200 for a plain return). -/
def statusOf : HandlerOutcome → ℕ
  | .ok _ => 200
  | .error s _ => s

/-- A collector DataFrame as it stands after `index.strftime(...)`: each row
is its formatted timestamp string plus the named column cells. -/
structure DataFrame where
  rows : List (String × List (String × PyValue))

/-- pandas `notna` on one cell: false exactly on NaN floats and `None`
(an infinity is `notna`-true and survives the mask). -/
def notnaCell : PyValue → Bool
  | .none => false
  | .npFloat f => !f.isNan
  | .pyFloat f => !f.isNan
  | _ => true

/-- `df.where(df.notna(), None)` on one cell. -/
def whereNotna (v : PyValue) : PyValue := if notnaCell v then v else .none

/-- `df.where(df.notna(), None).reset_index().to_dict(orient="records")`:
one record per row, the formatted index first, NaN cells replaced by None. -/
def toRecords (df : DataFrame) : List PyValue :=
  df.rows.map (fun r =>
    PyValue.dict (("index", PyValue.str r.1) :: r.2.map (fun c => (c.1, whereNotna c.2))))

/-- The behaviour of the external collaborators during one request: the data
collector `collector.get_stock_data` (third argument: the `interval` keyword
argument when the call site passes it, `Option.none` when the call site omits
it) and the analyzer `analyzer.generate_insights`.  Either may raise. -/
structure Collaborators where
  collect : String → String → Option String → Except PyExn (Option DataFrame)
  generate_insights : String → String → Except PyExn PyValue

/-- Embedding of the `/api/stock/data` handler (src/main.py lines 74–103).
The whole body sits in a `try` whose `except Exception` re-raises every
exception as a 500 — including the `HTTPException(404)` raised for a missing
symbol, since `HTTPException` derives from `Exception`. -/
def get_stock_data (c : Collaborators) (now : String) (req : StockRequest) : HandlerOutcome :=
  let body : Except PyExn PyValue :=
    match c.collect req.symbol req.period (Option.some req.interval) with
    | Except.error e => Except.error e
    | Except.ok Option.none =>
        Except.error (PyExn.http 404 ("No data found for symbol " ++ req.symbol))
    | Except.ok (Option.some df) =>
        Except.ok (PyValue.dict
          [("symbol", PyValue.str req.symbol),
           ("timestamp", PyValue.str now),
           ("data", PyValue.list (toRecords df))])
  match body with
  | Except.ok v => HandlerOutcome.ok v
  | Except.error e => HandlerOutcome.error 500 ("Error fetching stock data: " ++ e.message)

/-- Embedding of the `/api/stock/analysis` handler (src/main.py lines
106–165).  The collector is called without the `interval` keyword (line 111);
the insights and the data records are sanitized with
`convert_to_native_types`; the `except Exception` clause re-raises everything
as a 500, including the 404 raised for a missing symbol. -/
def get_stock_analysis (c : Collaborators) (now : String) (req : StockRequest) : HandlerOutcome :=
  let body : Except PyExn PyValue :=
    match c.collect req.symbol req.period Option.none with
    | Except.error e => Except.error e
    | Except.ok Option.none =>
        Except.error (PyExn.http 404 ("No data found for symbol " ++ req.symbol))
    | Except.ok (Option.some df) =>
        match c.generate_insights req.symbol req.period with
        | Except.error e => Except.error e
        | Except.ok insights =>
            Except.ok (PyValue.dict
              [("timestamp", PyValue.str now),
               ("symbol", PyValue.str req.symbol),
               ("data", PyValue.list ((toRecords df).map convert_to_native_types)),
               ("insights", convert_to_native_types insights)])
  match body with
  | Except.ok v => HandlerOutcome.ok v
  | Except.error e => HandlerOutcome.error 500 ("Error generating analysis: " ++ e.message)

/-- The `insights` field of a successful response body. -/
def insightsOf : HandlerOutcome → Option PyValue
  | HandlerOutcome.ok (PyValue.dict es) =>
      (es.find? (fun p => p.1 == "insights")).map Prod.snd
  | _ => Option.none

/-- A collector that resolves no symbol (returns `None`). -/
def notFoundCollab : Collaborators where
  collect := fun _ _ _ => Except.ok Option.none
  generate_insights := fun _ _ => Except.ok (PyValue.dict [])

/-- C3 fails on the code: when the collector returns `None`, both handlers do
build an `HTTPException(404)`, but they raise it inside the `try` block whose
`except Exception` clause catches every `Exception` — `HTTPException`
included — and re-raises a 500.  The client therefore observes a
server-error, not the claimed client-error. -/
theorem C3_not_found_yields_500 :
    statusOf (get_stock_data notFoundCollab "2024-01-01" ⟨"NOSUCH", "6mo", "1d"⟩) = 500
    ∧ statusOf (get_stock_analysis notFoundCollab "2024-01-01" ⟨"NOSUCH", "6mo", "1d"⟩) = 500 :=
  ⟨rfl, rfl⟩

/-- A collector whose answer depends on the `interval` keyword it receives:
not-found when called with interval `"1d"`, an empty frame otherwise. -/
def intervalSensitiveCollab : Collaborators where
  collect := fun _ _ i =>
    Except.ok (if i = Option.some "1d" then Option.none else Option.some ⟨[]⟩)
  generate_insights := fun _ _ => Except.ok (PyValue.dict [])

/-- C10: the analysis handler never reads the request's `interval` field —
its collector call (line 111) omits the keyword — so two requests equal in
symbol and period produce identical outcomes under every collaborator
behaviour and clock; whereas the data handler forwards `interval`, and some
collaborator behaviour distinguishes two requests differing only there. -/
theorem C10_analysis_ignores_interval :
    (∀ (c : Collaborators) (now : String) (r1 r2 : StockRequest),
        r1.symbol = r2.symbol → r1.period = r2.period →
        get_stock_analysis c now r1 = get_stock_analysis c now r2)
    ∧ (∃ (c : Collaborators) (now : String) (r1 r2 : StockRequest),
        r1.symbol = r2.symbol ∧ r1.period = r2.period ∧ r1.interval ≠ r2.interval
        ∧ get_stock_data c now r1 ≠ get_stock_data c now r2) := by
  constructor
  · intro c now r1 r2 hs hp
    cases r1; cases r2
    simp only at hs hp
    subst hs; subst hp
    rfl
  · refine ⟨intervalSensitiveCollab, "t",
      ⟨"A", "6mo", "1d"⟩, ⟨"A", "6mo", "1h"⟩, rfl, rfl, by decide, ?_⟩
    intro h
    simp only [get_stock_data, intervalSensitiveCollab] at h
    simp at h

/-- Witness for C10: two concrete analysis requests differing only in
interval yield the same outcome. -/
theorem C10_witness :
    get_stock_analysis notFoundCollab "t" ⟨"A", "6mo", "1d"⟩
      = get_stock_analysis notFoundCollab "t" ⟨"A", "6mo", "1h"⟩ :=
  C10_analysis_ignores_interval.1 notFoundCollab "t"
    ⟨"A", "6mo", "1d"⟩ ⟨"A", "6mo", "1h"⟩ rfl rfl

/-- C6: the analysis computation is deterministic given the collaborators'
answers — the returned insight bundle does not depend on the clock (the
timestamp is the only clock-dependent response field), and whenever the
collector and analyzer answer, the bundle is exactly the sanitized analyzer
output, a pure function of it; hence two calls made with the identical
TimeSeries and configuration (thus identical collaborator answers) yield
identical bundles. -/
theorem C6_bundle_deterministic :
    ∀ (c : Collaborators) (now1 now2 : String) (req : StockRequest),
      insightsOf (get_stock_analysis c now1 req)
        = insightsOf (get_stock_analysis c now2 req)
      ∧ (∀ (df : DataFrame) (ib : PyValue),
          c.collect req.symbol req.period Option.none = Except.ok (Option.some df) →
          c.generate_insights req.symbol req.period = Except.ok ib →
          insightsOf (get_stock_analysis c now1 req)
            = Option.some (convert_to_native_types ib)) := by
  intro c now1 now2 req
  constructor
  · cases hc : c.collect req.symbol req.period Option.none with
    | error e => simp [get_stock_analysis, hc, insightsOf]
    | ok data =>
      cases data with
      | none => simp [get_stock_analysis, hc, insightsOf]
      | some df =>
        cases hg : c.generate_insights req.symbol req.period with
        | error e => simp [get_stock_analysis, hc, hg, insightsOf]
        | ok ib => simp [get_stock_analysis, hc, hg, insightsOf]
  · intro df ib hc hg
    simp [get_stock_analysis, hc, hg, insightsOf]

/-- Collaborators answering an empty frame and a fixed one-entry bundle. -/
def emptyFoundCollab : Collaborators where
  collect := fun _ _ _ => Except.ok (Option.some ⟨[]⟩)
  generate_insights := fun _ _ => Except.ok (PyValue.dict [("trend", PyValue.str "up")])

/-- Witness for C6 at a concrete collaborator behaviour and two different
clock readings. -/
theorem C6_witness :
    insightsOf (get_stock_analysis emptyFoundCollab "t1" ⟨"A", "6mo", "1d"⟩)
      = insightsOf (get_stock_analysis emptyFoundCollab "t2" ⟨"A", "6mo", "1d"⟩)
    ∧ insightsOf (get_stock_analysis emptyFoundCollab "t1" ⟨"A", "6mo", "1d"⟩)
      = Option.some (convert_to_native_types (PyValue.dict [("trend", PyValue.str "up")])) :=
  ⟨(C6_bundle_deterministic emptyFoundCollab "t1" "t2" ⟨"A", "6mo", "1d"⟩).1,
   (C6_bundle_deterministic emptyFoundCollab "t1" "t2" ⟨"A", "6mo", "1d"⟩).2
     ⟨[]⟩ (PyValue.dict [("trend", PyValue.str "up")]) rfl rfl⟩

/-- A market sample, per the spec's data model (spec section 3): a timestamp
plus optional OHLCV fields, absence being explicit. -/
structure Sample where
  timestamp : String
  openPrice : Option ℚ := Option.none
  highPrice : Option ℚ := Option.none
  lowPrice : Option ℚ := Option.none
  closePrice : Option ℚ := Option.none
  volume : Option ℕ := Option.none

/-- Modelled from the spec: the TimeSeries consumed by the Insight Assembler
(`data_analysis.py` is not under src/) — an ordered sequence of samples for
one symbol over one period (spec section 3). -/
structure TimeSeries where
  samples : List Sample

/-- The explicit insufficient-data marker (spec sections 4.2 and 7). -/
def insufficientMarker : PyValue := PyValue.str "insufficient data"

/-- The explicit unavailable marker substituted for a failed indicator
(spec section 4.3). -/
def unavailableMarker : PyValue := PyValue.str "unavailable"

/-- The assembler's bundle entry for one configured indicator: its computed
value, or the unavailable marker when the computation raises. -/
def entryFor (ts : TimeSeries)
    (p : String × (TimeSeries → Except String PyValue)) : String × PyValue :=
  (p.1, match p.2 ts with
        | Except.ok v => v
        | Except.error _ => unavailableMarker)

/-- Modelled from the spec: `FinancialAnalyzer.generate_insights`, the
Insight Assembler (`data_analysis.py` is not under src/).  Per spec section
4.3 it runs each configured indicator over the series and merges the results
into one bundle, catching a per-indicator failure and substituting the
explicit unavailable marker for that indicator alone. -/
def assemble_insights (inds : List (String × (TimeSeries → Except String PyValue)))
    (ts : TimeSeries) : PyValue :=
  PyValue.dict (inds.map (entryFor ts))

/-- Collaborators realised by a collector answering a fixed frame and by the
spec-modelled assembler over a fixed series and indicator configuration. -/
def assemblerCollab (d : Option DataFrame)
    (inds : List (String × (TimeSeries → Except String PyValue)))
    (ts : TimeSeries) : Collaborators where
  collect := fun _ _ _ => Except.ok d
  generate_insights := fun _ _ => Except.ok (assemble_insights inds ts)

/-- C7: a resolved symbol with an empty TimeSeries (zero samples in range)
yields a successful response whose bundle reports the insufficient-data
marker for every configured indicator — given the spec's indicator contract
that an indicator facing an empty series returns the marker instead of
raising (spec section 4.2). -/
theorem C7_empty_series_all_insufficient :
    ∀ (inds : List (String × (TimeSeries → Except String PyValue)))
      (ts : TimeSeries) (req : StockRequest) (now : String),
      ts.samples = [] →
      (∀ p ∈ inds, p.2 ts = Except.ok insufficientMarker) →
      get_stock_analysis (assemblerCollab (Option.some ⟨[]⟩) inds ts) now req
        = HandlerOutcome.ok (PyValue.dict
            [("timestamp", PyValue.str now),
             ("symbol", PyValue.str req.symbol),
             ("data", PyValue.list []),
             ("insights", PyValue.dict (inds.map (fun p => (p.1, insufficientMarker))))]) := by
  intro inds ts req now _ hinds
  have hassemble : assemble_insights inds ts
      = PyValue.dict (inds.map (fun p => (p.1, insufficientMarker))) := by
    unfold assemble_insights
    congr 1
    apply List.map_congr_left
    intro p hp
    simp [entryFor, hinds p hp]
  simp [get_stock_analysis, assemblerCollab, hassemble, toRecords,
        convert_to_native_types, convertEntries_eq_map, List.map_map,
        insufficientMarker, Function.comp]

/-- Witness for C7: one concrete emptiness-checking indicator over the empty
series. -/
theorem C7_witness :
    get_stock_analysis
        (assemblerCollab (Option.some ⟨[]⟩)
          [("volatility", fun ts =>
              if ts.samples.isEmpty then Except.ok insufficientMarker
              else Except.ok (PyValue.pyFloat (PyFloat.finite 1)))]
          ⟨[]⟩) "t" ⟨"A", "6mo", "1d"⟩
      = HandlerOutcome.ok (PyValue.dict
          [("timestamp", PyValue.str "t"),
           ("symbol", PyValue.str "A"),
           ("data", PyValue.list []),
           ("insights", PyValue.dict [("volatility", insufficientMarker)])]) :=
  C7_empty_series_all_insufficient _ _ _ _ rfl (by
    intro p hp
    rw [List.mem_singleton] at hp
    subst hp
    rfl)

/-- C5: when exactly one configured indicator raises (and every other one
returns a value), the analysis still answers successfully with a complete
bundle: the failing indicator alone carries the unavailable marker, every
other indicator carries its computed value — per-indicator failure never
aborts the request (spec section 4.3, partial-result semantics). -/
theorem C5_single_failure_isolated :
    ∀ (pre post : List (String × (TimeSeries → Except String PyValue)))
      (nm : String) (f : TimeSeries → Except String PyValue)
      (ts : TimeSeries) (df : DataFrame) (req : StockRequest) (now msg : String),
      f ts = Except.error msg →
      (∀ p ∈ pre ++ post, ∃ v, p.2 ts = Except.ok v) →
      statusOf (get_stock_analysis
          (assemblerCollab (Option.some df) (pre ++ [(nm, f)] ++ post) ts) now req) = 200
      ∧ insightsOf (get_stock_analysis
          (assemblerCollab (Option.some df) (pre ++ [(nm, f)] ++ post) ts) now req)
        = Option.some (convert_to_native_types (PyValue.dict
            (pre.map (entryFor ts) ++ [(nm, unavailableMarker)] ++ post.map (entryFor ts))))
      ∧ (∀ p ∈ pre ++ post, ∀ v, p.2 ts = Except.ok v → entryFor ts p = (p.1, v)) := by
  intro pre post nm f ts df req now msg hf _
  have hassemble : assemble_insights (pre ++ (nm, f) :: post) ts
      = PyValue.dict
          (pre.map (entryFor ts) ++ (nm, unavailableMarker) :: post.map (entryFor ts)) := by
    simp [assemble_insights, List.map_append, entryFor, hf]
  refine ⟨?_, ?_, ?_⟩
  · simp [get_stock_analysis, assemblerCollab, statusOf]
  · simp [get_stock_analysis, assemblerCollab, hassemble, insightsOf]
  · intro p _ v hv
    simp [entryFor, hv]

/-- Witness for C5: three concrete indicators of which exactly the middle one
raises; the response is successful and the bundle isolates the failure. -/
theorem C5_witness :
    statusOf (get_stock_analysis
        (assemblerCollab (Option.some ⟨[]⟩)
          ([("sma", fun _ => Except.ok (PyValue.pyFloat (PyFloat.finite 5)))]
            ++ [("rsi", fun _ => Except.error "boom")]
            ++ [("trend", fun _ => Except.ok (PyValue.str "up"))]) ⟨[]⟩)
        "t" ⟨"A", "6mo", "1d"⟩) = 200
    ∧ insightsOf (get_stock_analysis
        (assemblerCollab (Option.some ⟨[]⟩)
          ([("sma", fun _ => Except.ok (PyValue.pyFloat (PyFloat.finite 5)))]
            ++ [("rsi", fun _ => Except.error "boom")]
            ++ [("trend", fun _ => Except.ok (PyValue.str "up"))]) ⟨[]⟩)
        "t" ⟨"A", "6mo", "1d"⟩)
      = Option.some (convert_to_native_types (PyValue.dict
          ([("sma", fun _ => Except.ok (PyValue.pyFloat (PyFloat.finite 5)))].map (entryFor ⟨[]⟩)
            ++ [("rsi", unavailableMarker)]
            ++ [("trend", fun _ => Except.ok (PyValue.str "up"))].map (entryFor ⟨[]⟩)))) := by
  have h := C5_single_failure_isolated
    [("sma", fun _ => Except.ok (PyValue.pyFloat (PyFloat.finite 5)))]
    [("trend", fun _ => Except.ok (PyValue.str "up"))]
    "rsi" (fun _ => Except.error "boom") ⟨[]⟩ ⟨[]⟩ ⟨"A", "6mo", "1d"⟩ "t" "boom"
    rfl (by
      intro p hp
      simp only [List.singleton_append, List.mem_cons, List.not_mem_nil, or_false] at hp
      rcases hp with h1 | h1 <;> subst h1 <;> exact ⟨_, rfl⟩)
  exact ⟨h.1, h.2.1⟩
